import Mathlib

/-!
Verification of the VirtualBox driver of the `substance` repository
(`substance/driver/virtualbox/__init__.py`) against its specification.

The driver code is embedded shallowly:

* `Try` is the Outcome primitive of `substance.monads` (not shipped in the
  sources at hand), modelled from the spec, §4.1: a two-variant result type
  with `map`, `bind`, `then`, `catch`, `catchError` (typed recovery) and
  `sequence` (eager aggregation, first failure wins).
* Backend primitives (the `network`, `machine` and config-store
  collaborators) are opaque, already-fallible operations; they are passed in
  as a `Backend` record of pure functions and every invocation is recorded
  in a call trace, so ordering and frame properties can be stated.
* Driver methods are state transformers over `DriverSt` (in-memory config +
  call trace).  Python-level runtime errors that escape the Outcome
  discipline (attribute access on `None`, subscripting a non-dict) are
  modelled as a `Crash` exception; a Python method falling off its end
  without `return` yields the distinguished value `PyRes.pynone`.
-/

/-- Error kinds of `substance.exceptions` relevant to the driver. -/
inductive ErrKind where
  | FileDoesNotExist
  | VirtualBoxObjectNotFound
  | BackendCommandFailed
  | OtherError
deriving DecidableEq

/-- A typed error value carried by a failed Outcome. -/
structure Err where
  kind : ErrKind
  msg : String
deriving DecidableEq

/-- Modelled from the spec: `Outcome<T, E>` of §3/§4.1 (`substance.monads`,
not among the sources): exactly one of Success(value) / Failure(error). -/
inductive Try (α : Type) where
  | ok (v : α)
  | fail (e : Err)
deriving DecidableEq

namespace Try

/-- Modelled from the spec: `map` — Success(v) → Success(f v); Failure unchanged. -/
def map {α β : Type} (t : Try α) (f : α → β) : Try β :=
  match t with
  | .ok v => .ok (f v)
  | .fail e => .fail e

/-- Modelled from the spec: `bind` — Success(v) → f v; Failure unchanged (f not called). -/
def bind {α β : Type} (t : Try α) (f : α → Try β) : Try β :=
  match t with
  | .ok v => f v
  | .fail e => .fail e

/-- Modelled from the spec: the untyped blanket recovery `.catch` —
Failure(e) → f e; Success unchanged. -/
def catchAll {α : Type} (t : Try α) (f : Err → Try α) : Try α :=
  match t with
  | .ok v => .ok v
  | .fail e => f e

/-- Modelled from the spec: `catchError(kind, f)` — recovers only when the
failure's error kind matches `kind`; otherwise the failure propagates. -/
def catchError {α : Type} (t : Try α) (k : ErrKind) (f : Err → Try α) : Try α :=
  match t with
  | .ok v => .ok v
  | .fail e => if e.kind = k then f e else .fail e

/-- Is this Outcome a Failure? (`isFail` in the source.) -/
def isFail {α : Type} (t : Try α) : Bool :=
  match t with
  | .ok _ => false
  | .fail _ => true

/-- Is this Outcome a Success? -/
def isOK {α : Type} (t : Try α) : Bool :=
  match t with
  | .ok _ => true
  | .fail _ => false

end Try

/-- Modelled from the spec: `Try.sequence` (§4.1) applied to the 3-tuple used
by `assertNetworking`: inputs are already evaluated; Success of the tuple if
all succeed, otherwise the first Failure in input order. -/
def seq3 {α β γ : Type} (a : Try α) (b : Try β) (c : Try γ) : Try (α × β × γ) :=
  match a with
  | .fail e => .fail e
  | .ok x =>
    match b with
    | .fail e => .fail e
    | .ok y =>
      match c with
      | .fail e => .fail e
      | .ok z => .ok (x, y, z)

/-- The closed engine-state enum of `substance.constants.EngineStates`. -/
inductive EngineStates where
  | RUNNING
  | STOPPED
  | SUSPENDED
  | UNKNOWN
  | INEXISTENT
deriving DecidableEq

/-- A Python runtime error escaping the Outcome discipline. -/
inductive Crash where
  | attributeError   -- attribute access on None
  | typeError        -- subscripting / unpacking a non-dict value
  | addrFormatError  -- IPNetwork() applied to None or an unparsable string
deriving DecidableEq

/-- A dynamically-typed Python return value at positions where an Outcome is
expected: either a genuine Outcome object or Python `None` (the value of a
method that falls off its end without a `return` statement). -/
inductive PyRes (α : Type) where
  | out (o : Try α)
  | pynone
deriving DecidableEq

/-- A host-only interface as reported by the backend (`hoif.name`,
`hoif.ip`); the address is kept numerically, `.format()` renders it. -/
structure Hoif where
  name : String
  ip : Nat
deriving DecidableEq

/-- Opaque marker for a DHCP service object reported by the backend. -/
abbrev DHCP := String

/-- The netconfig dict built by `readNetworkConfig`. -/
structure NetConfig where
  gateway : String
  netmask : String
  lowerIP : String
  upperIP : String
deriving DecidableEq

/-- The dynamic value passed to `provisionNetworking` as `netconfig`: the
reconciliation path passes the plain dict (unwrapped by `Try.sequence`), while
the cold-start branch of `assertNetworking` passes the still-`OK`-wrapped
Outcome returned by `readNetworkConfig`. -/
inductive NetConfigArg where
  | plain (c : NetConfig)
  | wrapped (t : Try NetConfig)
deriving DecidableEq

/-- The driver's persisted key-value configuration (`virtualbox.yml`):
keys `network` (CIDR string) and `interface` (backend interface name). -/
structure ConfigStore where
  network : Option String
  interface : Option String
deriving DecidableEq

/-- Python truthiness of the configured `interface` value (`if interface:`):
`None` and the empty string are falsy. -/
def truthy (o : Option String) : Bool :=
  match o with
  | none => false
  | some s => !s.isEmpty

-- ---------------------------------------------------------------------------
-- IPv4 / CIDR arithmetic of `netaddr.IPNetwork` as used by the driver.
-- ---------------------------------------------------------------------------

/-- A parsed CIDR block: 32-bit address and mask length. -/
structure IPNet where
  addr : Nat
  plen : Nat
deriving DecidableEq

/-- Split a character list at every occurrence of `sep` (the splitting done
by `str.split(sep)` on the CIDR string). -/
def splitOnChar (sep : Char) : List Char → List (List Char)
  | [] => [[]]
  | c :: cs =>
    let r := splitOnChar sep cs
    if c = sep then [] :: r
    else
      match r with
      | [] => [[c]]
      | g :: gs => (c :: g) :: gs

/-- Numeric value of a non-empty all-digit character list. -/
def digitsVal : List Char → Option Nat
  | [] => none
  | l =>
    if l.all Char.isDigit then
      some (l.foldl (fun acc c => acc * 10 + (c.toNat - 48)) 0)
    else none

/-- Parse one dotted-quad octet: digits only, value at most 255. -/
def parseOctet (l : List Char) : Option Nat :=
  match digitsVal l with
  | some n => if n ≤ 255 then some n else none
  | none => none

/-- Parse a dotted-quad IPv4 address into its 32-bit numeric value. -/
def parseIPv4 (l : List Char) : Option Nat :=
  match (splitOnChar '.' l).mapM parseOctet with
  | some [a, b, c, d] => some (a * 16777216 + b * 65536 + c * 256 + d)
  | _ => none

/-- Parse a CIDR string `a.b.c.d/p` (a bare address gets `/32`). -/
def parseCIDR (s : String) : Option IPNet :=
  match splitOnChar '/' s.data with
  | [ip] =>
    match parseIPv4 ip with
    | some a => some ⟨a, 32⟩
    | none => none
  | [ip, p] =>
    match parseIPv4 ip, digitsVal p with
    | some a, some n => if n ≤ 32 then some ⟨a, n⟩ else none
    | _, _ => none
  | _ => none

/-- Render a 32-bit value as a dotted-quad string (`IPAddress.format()`). -/
def formatIPv4 (n : Nat) : String :=
  s!"{n / 16777216 % 256}.{n / 65536 % 256}.{n / 256 % 256}.{n % 256}"

/-- Number of addresses in the block. -/
def netSize (net : IPNet) : Nat := 2 ^ (32 - net.plen)

/-- The block's network address (host bits of the given address cleared);
`IPNetwork` indexing counts from here. -/
def netBase (net : IPNet) : Nat := net.addr - net.addr % netSize net

/-- `netrange[i]`: the i-th address of the block, counting from the network
address. -/
def netAt (net : IPNet) (i : Nat) : Nat := netBase net + i

/-- `netrange.netmask` as a 32-bit value. -/
def netmaskOf (net : IPNet) : Nat := 2 ^ 32 - 2 ^ (32 - net.plen)

/-- The netconfig dict exactly as `readNetworkConfig` builds it:
`netrange[1]`, `netrange.netmask`, `netrange[2]`, `netrange[-1]`. -/
def netConfigOf (net : IPNet) : NetConfig :=
  { gateway := formatIPv4 (netAt net 1)
    netmask := formatIPv4 (netmaskOf net)
    lowerIP := formatIPv4 (netAt net 2)
    upperIP := formatIPv4 (netAt net (netSize net - 1)) }

/-- Spec-side reading: the second address in the range. -/
def secondAddress (net : IPNet) : Nat := netBase net + 1

/-- Spec-side reading: the third address in the range. -/
def thirdAddress (net : IPNet) : Nat := netBase net + 2

/-- Spec-side reading: the last address (broadcast) in the range. -/
def lastAddress (net : IPNet) : Nat := netBase net + (netSize net - 1)

/-- Spec-side reading: the range's subnet mask. -/
def subnetMask (net : IPNet) : Nat := netmaskOf net

-- ---------------------------------------------------------------------------
-- Backend collaborators and the driver effect monad.
-- ---------------------------------------------------------------------------

/-- One invocation of an external collaborator, with the arguments it was
invoked with. -/
inductive Call where
  | loadConfigFile
  | saveConfig (cfg : ConfigStore)
  | readHostOnlyInterface (name : String)
  | readDHCP (name : String)
  | addHostOnlyInterface
  | configureHostOnlyInterface (iface ip netmask : String)
  | removeDHCP (iface : String)
  | addDHCP (iface : String) (cfg : NetConfig)
  | machineStart (uuid : String)
  | readMachineState (uuid : String)
deriving DecidableEq

/-- Is this call the backend machine-start primitive? -/
def Call.isStart (c : Call) : Bool :=
  match c with
  | .machineStart _ => true
  | _ => false

/-- Pure model of the external collaborators (config store, network backend,
machine backend): each primitive's Outcome as a function of its arguments.
Payloads the driver never inspects are modelled as opaque strings. -/
structure Backend where
  loadConfigFile : Try ConfigStore
  saveConfig : ConfigStore → Try Unit
  readHostOnlyInterface : String → Try Hoif
  readDHCP : String → Try DHCP
  addHostOnlyInterface : Try String
  configureHostOnlyInterface : String → String → String → Try String
  removeDHCP : String → Try String
  addDHCP : String → NetConfig → Try String
  start : String → Try String
  readMachineState : String → Try String

/-- Mutable driver state: the in-memory config object plus the chronological
trace of collaborator invocations. -/
structure DriverSt where
  config : ConfigStore
  trace : List Call
deriving DecidableEq

/-- The driver effect monad: state transformer with Python-crash exceptions;
the state (in particular the trace of calls already issued) survives a crash. -/
def M (α : Type) : Type := DriverSt → Except Crash α × DriverSt

/-- Return a value, leaving the state unchanged. -/
def M.pure {α : Type} (a : α) : M α := fun s => (.ok a, s)

/-- Sequence two effectful steps; a crash in the first aborts the second. -/
def M.bind {α β : Type} (x : M α) (f : α → M β) : M β := fun s =>
  match x s with
  | (.ok a, s') => f a s'
  | (.error c, s') => (.error c, s')

instance : Monad M where
  pure := M.pure
  bind := M.bind

/-- Raise a Python runtime error. -/
def M.crash {α : Type} (c : Crash) : M α := fun s => (.error c, s)

/-- Record one collaborator invocation in the trace. -/
def record (c : Call) : M Unit := fun s =>
  (.ok (), { s with trace := s.trace ++ [c] })

/-- Invoke a collaborator primitive: record the call, return its Outcome. -/
def call {α : Type} (c : Call) (r : Try α) : M (Try α) := do
  record c
  pure r

/-- Read the in-memory config object. -/
def getConfig : M ConfigStore := fun s => (.ok s.config, s)

/-- Replace the whole in-memory config (`loadConfigFile` loading the file). -/
def setConfigAll (c : ConfigStore) : M Unit := fun s =>
  (.ok (), { s with config := c })

/-- `self.config.set('interface', v)`. -/
def setInterfaceKey (v : Option String) : M Unit := fun s =>
  (.ok (), { s with config := { s.config with interface := v } })

/-- Dynamic `.then(f)` on a value that should be an Outcome: on `None` the
attribute access raises; on a Failure the failure is returned unchanged
without calling `f`; on a Success `f` is evaluated and its result — whatever
it is — becomes the chain value. -/
def pyThenM {α β : Type} (x : PyRes α) (f : M (PyRes β)) : M (PyRes β) :=
  match x with
  | .pynone => M.crash .attributeError
  | .out (.fail e) => M.pure (.out (.fail e))
  | .out (.ok _) => f

-- ---------------------------------------------------------------------------
-- The driver methods (VirtualBoxDriver, embedded line by line).
-- ---------------------------------------------------------------------------

/-- `getDefaultConfig`: the defaults dict — `network = "172.21.21.0/24"`,
`interface = None`. -/
def getDefaultConfig : ConfigStore :=
  { network := some "172.21.21.0/24", interface := none }

/-- `makeDefaultConfig`: write every default key into the config object, then
persist it; the result is the Outcome of `saveConfig`. -/
def makeDefaultConfig (b : Backend) : M (Try Unit) := do
  setConfigAll getDefaultConfig
  record (.saveConfig getDefaultConfig)
  M.pure (b.saveConfig getDefaultConfig)

/-- `assertConfig`: load the persisted config file; a `FileDoesNotExist`
failure is recovered by `makeDefaultConfig` (typed recovery `catchError`);
any other outcome passes through.  The carried value is dynamically either
the loaded config (left) or the save result's value (right). -/
def assertConfig (b : Backend) : M (Try (ConfigStore ⊕ Unit)) := do
  record .loadConfigFile
  match b.loadConfigFile with
  | .ok c => do
    setConfigAll c
    M.pure (.ok (.inl c))
  | .fail e =>
    if e.kind = ErrKind.FileDoesNotExist then do
      let r ← makeDefaultConfig b
      M.pure (r.map Sum.inr)
    else
      M.pure (.fail e)

/-- `readNetworkConfig`: parse the configured `network` CIDR with
`IPNetwork` and build the netconfig dict — `netrange[1]`,
`netrange.netmask`, `netrange[2]`, `netrange[-1]`, each `.format()`-ed —
wrapped in `OK`.  `IPNetwork` raises on a missing or unparsable value. -/
def readNetworkConfig : M (Try NetConfig) := do
  let cfg ← getConfig
  match cfg.network with
  | none => M.crash .addrFormatError
  | some nw =>
    match parseCIDR nw with
    | none => M.crash .addrFormatError
    | some net =>
      M.pure (.ok
        { gateway := formatIPv4 (netAt net 1)
          netmask := formatIPv4 (netmaskOf net)
          lowerIP := formatIPv4 (netAt net 2)
          upperIP := formatIPv4 (netAt net (netSize net - 1)) })

/-- `saveInterface`: `config.set('interface', iface)` then persist; the
result is the Outcome of `saveConfig`. -/
def saveInterface (b : Backend) (iface : String) : M (Try Unit) := do
  setInterfaceKey (some iface)
  let cfg ← getConfig
  record (.saveConfig cfg)
  M.pure (b.saveConfig cfg)

/-- `provisionDHCP`: `removeDHCP(interface).catch(lambda x: OK(interface))
.bind(defer(addDHCP, **netconfig))` — the removal is recovered by an untyped
blanket `.catch`, then the add step runs on the chain value.  The method has
no `return` statement, so its Python value is `None` (`pynone`), not the
chain's Outcome. -/
def provisionDHCP (b : Backend) (interface : String) (netconfig : NetConfig) :
    M (PyRes Hoif) := do
  let rm ← call (.removeDHCP interface) (b.removeDHCP interface)
  let caught := rm.catchAll (fun _ => .ok interface)
  let _chain ← (match caught with
    | .fail e => M.pure (.fail e)
    | .ok v => call (.addDHCP v netconfig) (b.addDHCP v netconfig))
  M.pure .pynone

/-- `provisionNetworking`: add a host-only interface (an early `return` on
failure), then `configureHostOnlyInterface(iface, ip=netconfig['gateway'],
netmask=netconfig['netmask']).then(provisionDHCP …).then(saveInterface …)
.then(readHostOnlyInterface …)`.  Subscripting `netconfig` when it is the
still-wrapped Outcome (cold-start branch) raises before the configure call
is issued. -/
def provisionNetworking (b : Backend) (netconfig : NetConfigArg) :
    M (PyRes Hoif) := do
  let ifm ← call .addHostOnlyInterface b.addHostOnlyInterface
  match ifm with
  | .fail e => M.pure (.out (.fail e))
  | .ok iface =>
    match netconfig with
    | .wrapped _ => M.crash .typeError
    | .plain cfg => do
      let c ← call (.configureHostOnlyInterface iface cfg.gateway cfg.netmask)
        (b.configureHostOnlyInterface iface cfg.gateway cfg.netmask)
      let r1 ← pyThenM (.out c) (provisionDHCP b iface cfg)
      let r2 ← pyThenM r1 (do
        let sv ← saveInterface b iface
        M.pure (.out sv))
      pyThenM r2 (do
        let rd ← call (.readHostOnlyInterface iface) (b.readHostOnlyInterface iface)
        M.pure (.out rd))

/-- `assertNetworkConfiguration`: decide between full provisioning (no actual
interface, or assigned address ≠ desired gateway), DHCP repair only (DHCP
absent), or returning the already-converged interface. -/
def assertNetworkConfiguration (b : Backend)
    (netparts : NetConfig × Option Hoif × Option DHCP) : M (PyRes Hoif) :=
  let (netconfig, hoif, dhcp) := netparts
  match hoif with
  | none => provisionNetworking b (.plain netconfig)
  | some h =>
    if formatIPv4 h.ip ≠ netconfig.gateway then
      provisionNetworking b (.plain netconfig)
    else
      match dhcp with
      | none => provisionDHCP b h.name netconfig
      | some _ => M.pure (.out (.ok h))

/-- The composite `X.catchError(VirtualBoxObjectNotFound, lambda err:
OK(None))` applied to a backend read: a present object becomes `OK(some _)`,
the typed not-found failure becomes the absence value `OK(none)`, and any
other failure propagates unchanged. -/
def catchNotFound {α : Type} (t : Try α) : Try (Option α) :=
  (t.map some).catchError .VirtualBoxObjectNotFound (fun _ => .ok none)

/-- `assertNetworking`: read the configured interface name and the desired
netconfig; if an interface is configured (truthy), read the actual interface
and DHCP state, each downgrading `VirtualBoxObjectNotFound` to `OK(None)`
via typed recovery, aggregate with `Try.sequence` and bind into
`assertNetworkConfiguration`; otherwise provision, passing the
still-wrapped netconfig Outcome. -/
def assertNetworking (b : Backend) : M (PyRes Hoif) := do
  let cfg ← getConfig
  let interface := cfg.interface
  let nc ← readNetworkConfig
  if truthy interface then do
    let name := interface.getD ""
    let hoifR ← call (.readHostOnlyInterface name) (b.readHostOnlyInterface name)
    let hoif := catchNotFound hoifR
    let dhcpR ← call (.readDHCP name) (b.readDHCP name)
    let dhcp := catchNotFound dhcpR
    match seq3 nc hoif dhcp with
    | .fail e => M.pure (.out (.fail e))
    | .ok parts => assertNetworkConfiguration b parts
  else
    provisionNetworking b (.wrapped nc)

/-- `startMachine`:
`assertConfig().then(assertNetworking).then(defer(machine.start, uuid))`. -/
def startMachine (b : Backend) (uuid : String) : M (PyRes String) := do
  let c ← assertConfig b
  let r1 ← pyThenM (PyRes.out c) (assertNetworking b)
  pyThenM r1 (do
    let st ← call (.machineStart uuid) (b.start uuid)
    M.pure (.out st))

/-- The state table of `vboxStateToMachineState`, as an association list in
source order. -/
def stateMapping : List (String × EngineStates) :=
  [("poweroff", .STOPPED), ("saved", .SUSPENDED), ("aborted", .STOPPED),
   ("paused", .STOPPED), ("stuck", .STOPPED), ("restoring", .STOPPED),
   ("snapshotting", .STOPPED), ("setting up", .STOPPED),
   ("online snapshotting", .STOPPED), ("restoring snapshot", .STOPPED),
   ("deleting snapshot", .STOPPED), ("running", .RUNNING),
   ("starting", .RUNNING), ("stopping", .RUNNING), ("saving", .RUNNING),
   ("live snapshotting", .RUNNING), ("unknown", .UNKNOWN),
   ("inaccessible", .INEXISTENT), ("inexistent", .INEXISTENT)]

/-- `vboxStateToMachineState`: `mapping.get(vboxState, UNKNOWN)` wrapped in
`OK` — total, never a Failure. -/
def vboxStateToMachineState (vboxState : String) : Try EngineStates :=
  .ok ((stateMapping.lookup vboxState).getD .UNKNOWN)

/-- `getMachineState`: `machine.readMachineState(uuid)
.bind(self.vboxStateToMachineState)`. -/
def getMachineState (b : Backend) (uuid : String) : M (Try EngineStates) := do
  let r ← call (.readMachineState uuid) (b.readMachineState uuid)
  M.pure (r.bind vboxStateToMachineState)

/-- Python `is` between the Outcome object returned by `getMachineState` and
an `EngineStates` enum member: identity between objects of two different
classes, always `False`. -/
def outcomeIsState (_o : Try EngineStates) (_e : EngineStates) : Bool :=
  false

/-- `isRunning`: `if self.getMachineState(uuid) is EngineStates.RUNNING:
return True` — no `else`, so the method otherwise returns `None`. -/
def isRunning (b : Backend) (uuid : String) : M (Option Bool) := do
  let st ← getMachineState b uuid
  if outcomeIsState st .RUNNING then M.pure (some true) else M.pure none

/-- `isStopped`: `if self.getMachineState(uuid) is not EngineStates.RUNNING:
return True` — otherwise `None`. -/
def isStopped (b : Backend) (uuid : String) : M (Option Bool) := do
  let st ← getMachineState b uuid
  if !outcomeIsState st .RUNNING then M.pure (some true) else M.pure none

/-- `isSuspended`: `if self.getMachineState(uuid) is EngineStates.SUSPENDED:
return True` — otherwise `None`. -/
def isSuspended (b : Backend) (uuid : String) : M (Option Bool) := do
  let st ← getMachineState b uuid
  if outcomeIsState st .SUSPENDED then M.pure (some true) else M.pure none

-- ---------------------------------------------------------------------------
-- Concrete collaborator instances, used to evaluate claims on real inputs.
-- ---------------------------------------------------------------------------

/-- The desired netconfig derived from the default network
`172.21.21.0/24`. -/
def cfg0 : NetConfig :=
  { gateway := "172.21.21.1", netmask := "255.255.255.0"
    lowerIP := "172.21.21.2", upperIP := "172.21.21.255" }

/-- Numeric value of `172.21.21.1`. -/
def gwAddr : Nat := 172 * 16777216 + 21 * 65536 + 21 * 256 + 1

/-- An actual interface that matches the desired gateway. -/
def hoif0 : Hoif := { name := "vboxnet0", ip := gwAddr }

/-- A collaborator where every primitive succeeds and the actual state is
already converged (interface present with the desired gateway, DHCP bound). -/
def okBackend : Backend :=
  { loadConfigFile := .ok { network := some "172.21.21.0/24", interface := some "vboxnet0" }
    saveConfig := fun _ => .ok ()
    readHostOnlyInterface := fun n => .ok { name := n, ip := gwAddr }
    readDHCP := fun _ => .ok "dhcp0"
    addHostOnlyInterface := .ok "vboxnet1"
    configureHostOnlyInterface := fun _ _ _ => .ok ""
    removeDHCP := fun _ => .ok ""
    addDHCP := fun _ _ => .ok ""
    start := fun _ => .ok "started"
    readMachineState := fun _ => .ok "running" }

/-- Like `okBackend`, but the DHCP service is absent (scenario C). -/
def noDhcpBackend : Backend :=
  { okBackend with
    readDHCP := fun _ => .fail { kind := .VirtualBoxObjectNotFound, msg := "no dhcp" } }

/-- Like `okBackend`, but the actual interface is absent (scenario B). -/
def noIfaceBackend : Backend :=
  { okBackend with
    readHostOnlyInterface :=
      fun _ => .fail { kind := .VirtualBoxObjectNotFound, msg := "no hoif" } }

/-- Like `okBackend`, but removing the DHCP binding fails with a genuine
backend error (not an object-presence error). -/
def dhcpRemovalFailsBackend : Backend :=
  { okBackend with
    removeDHCP := fun _ => .fail { kind := .BackendCommandFailed, msg := "boom" } }

/-- Driver state with a configured interface and the default network. -/
def st0 : DriverSt :=
  { config := { network := some "172.21.21.0/24", interface := some "vboxnet0" }
    trace := [] }

/-- Cold-start driver state: default network, no interface configured. -/
def stCold : DriverSt :=
  { config := { network := some "172.21.21.0/24", interface := none }
    trace := [] }

-- ---------------------------------------------------------------------------
-- Proof infrastructure.
-- ---------------------------------------------------------------------------

deriving instance DecidableEq for Except

/-- Did an effectful driver operation return a Success Outcome (no crash, not
`None`, not a Failure)? -/
def pySucceeded {α : Type} (r : Except Crash (PyRes α)) : Bool :=
  match r with
  | .ok (.out (.ok _)) => true
  | _ => false

/-- Unfolding of the monad's bind at an explicit state. -/
theorem M.bind_apply {α β : Type} (x : M α) (f : α → M β) (s : DriverSt) :
    (x >>= f) s =
      match x s with
      | (.ok a, s') => f a s'
      | (.error c, s') => (.error c, s') := rfl

/-- Unfolding of `M.bind` at an explicit state. -/
theorem M.bind_apply' {α β : Type} (x : M α) (f : α → M β) (s : DriverSt) :
    M.bind x f s =
      match x s with
      | (.ok a, s') => f a s'
      | (.error c, s') => (.error c, s') := rfl

/-- Unfolding of the monad's pure at an explicit state. -/
theorem M.pure_apply {α : Type} (a : α) (s : DriverSt) :
    (pure a : M α) s = (.ok a, s) := rfl

/-- Unfolding of `M.pure` at an explicit state. -/
theorem M.pure_apply' {α : Type} (a : α) (s : DriverSt) :
    M.pure a s = (.ok a, s) := rfl

/-- Unfolding of `M.crash` at an explicit state. -/
theorem M.crash_apply {α : Type} (c : Crash) (s : DriverSt) :
    (M.crash c : M α) s = (.error c, s) := rfl

/-- Unfolding of `record` at an explicit state. -/
theorem record_apply (c : Call) (s : DriverSt) :
    record c s = (.ok (), { s with trace := s.trace ++ [c] }) := rfl

/-- Unfolding of `getConfig` at an explicit state. -/
theorem getConfig_apply (s : DriverSt) : getConfig s = (.ok s.config, s) := rfl

/-- Unfolding of `setConfigAll` at an explicit state. -/
theorem setConfigAll_apply (c : ConfigStore) (s : DriverSt) :
    setConfigAll c s = (.ok (), { s with config := c }) := rfl

/-- Unfolding of `setInterfaceKey` at an explicit state. -/
theorem setInterfaceKey_apply (v : Option String) (s : DriverSt) :
    setInterfaceKey v s = (.ok (), { s with config := { s.config with interface := v } }) := rfl

/-- Running `call` records the invocation and returns the primitive's
Outcome. -/
theorem call_apply {α : Type} (c : Call) (r : Try α) (s : DriverSt) :
    call c r s = (.ok r, { s with trace := s.trace ++ [c] }) := rfl

/-- Running `saveInterface` sets the `interface` key, persists, and returns
the save's Outcome. -/
theorem saveInterface_apply (b : Backend) (iface : String) (s : DriverSt) :
    saveInterface b iface s =
      (.ok (b.saveConfig { s.config with interface := some iface }),
       { config := { s.config with interface := some iface }
         trace := s.trace ++ [.saveConfig { s.config with interface := some iface }] }) := rfl

/-- The first argument the add-DHCP step receives: the removal chain's
carried value — the removal's success payload, or the interface name
substituted by the blanket recovery. -/
def dhcpAddArg (b : Backend) (iface : String) : String :=
  match b.removeDHCP iface with
  | .ok v => v
  | .fail _ => iface

/-- Closed-form run of `provisionDHCP`: the removal and the add step are both
invoked (whatever the removal's outcome), and the method returns Python
`None`. -/
theorem provisionDHCP_apply (b : Backend) (iface : String) (cfg : NetConfig)
    (s : DriverSt) :
    provisionDHCP b iface cfg s =
      (.ok .pynone,
       { s with trace := s.trace ++ [.removeDHCP iface, .addDHCP (dhcpAddArg b iface) cfg] }) := by
  cases hr : b.removeDHCP iface with
  | ok v =>
    simp [provisionDHCP, dhcpAddArg, hr, M.bind_apply, M.bind_apply', M.pure_apply,
      M.pure_apply', call_apply, record_apply, Try.catchAll]
  | fail e =>
    simp [provisionDHCP, dhcpAddArg, hr, M.bind_apply, M.bind_apply', M.pure_apply,
      M.pure_apply', call_apply, record_apply, Try.catchAll]

/-- Closed-form run of `readNetworkConfig`. -/
theorem readNetworkConfig_apply (s : DriverSt) :
    readNetworkConfig s =
      match s.config.network with
      | none => (.error .addrFormatError, s)
      | some nw =>
        match parseCIDR nw with
        | none => (.error .addrFormatError, s)
        | some net => (.ok (.ok (netConfigOf net)), s) := by
  cases hn : s.config.network with
  | none =>
    simp [readNetworkConfig, hn, M.bind_apply, M.bind_apply', M.pure_apply,
      M.pure_apply', getConfig_apply, M.crash_apply]
  | some nw =>
    cases hp : parseCIDR nw with
    | none =>
      simp [readNetworkConfig, hn, hp, M.bind_apply, M.bind_apply', M.pure_apply,
        M.pure_apply', getConfig_apply, M.crash_apply]
    | some net =>
      simp [readNetworkConfig, hn, hp, M.bind_apply, M.bind_apply', M.pure_apply,
        M.pure_apply', getConfig_apply, M.crash_apply, netConfigOf]

/-- Closed-form run of `assertConfig`: a loaded config is adopted and
returned; a missing config file is repaired by writing and persisting the
defaults, the save's Outcome becoming the result; any other load failure
propagates unchanged. -/
theorem assertConfig_apply (b : Backend) (s : DriverSt) :
    assertConfig b s =
      match b.loadConfigFile with
      | .ok c =>
        (.ok (.ok (.inl c)), { config := c, trace := s.trace ++ [.loadConfigFile] })
      | .fail e =>
        if e.kind = ErrKind.FileDoesNotExist then
          (.ok ((b.saveConfig getDefaultConfig).map Sum.inr),
           { config := getDefaultConfig
             trace := s.trace ++ [.loadConfigFile, .saveConfig getDefaultConfig] })
        else
          (.ok (.fail e), { s with trace := s.trace ++ [.loadConfigFile] }) := by
  cases hl : b.loadConfigFile with
  | ok c =>
    simp [assertConfig, hl, M.bind_apply, M.bind_apply', M.pure_apply, M.pure_apply',
      record_apply, setConfigAll_apply]
  | fail e =>
    by_cases hk : e.kind = ErrKind.FileDoesNotExist <;>
      simp [assertConfig, makeDefaultConfig, hl, hk, M.bind_apply, M.bind_apply',
        M.pure_apply, M.pure_apply', record_apply, setConfigAll_apply]

/-- Closed-form run of `provisionNetworking`: an add failure is returned; a
success followed by the cold-start (still-Outcome-wrapped) netconfig raises
`TypeError` at the subscript; with a plain netconfig dict, a configure
failure is returned, and a configure success reaches the DHCP chain whose
missing return then raises `AttributeError` — the save and re-read steps are
unreachable. -/
theorem provisionNetworking_apply (b : Backend) (nca : NetConfigArg) (s : DriverSt) :
    provisionNetworking b nca s =
      match b.addHostOnlyInterface with
      | .fail e =>
        (.ok (.out (.fail e)), { s with trace := s.trace ++ [.addHostOnlyInterface] })
      | .ok iface =>
        match nca with
        | .wrapped _ =>
          (.error .typeError, { s with trace := s.trace ++ [.addHostOnlyInterface] })
        | .plain cfg =>
          match b.configureHostOnlyInterface iface cfg.gateway cfg.netmask with
          | .fail e =>
            (.ok (.out (.fail e)),
             { s with trace := s.trace ++ [.addHostOnlyInterface,
                 .configureHostOnlyInterface iface cfg.gateway cfg.netmask] })
          | .ok _ =>
            (.error .attributeError,
             { s with trace := s.trace ++ [.addHostOnlyInterface,
                 .configureHostOnlyInterface iface cfg.gateway cfg.netmask,
                 .removeDHCP iface, .addDHCP (dhcpAddArg b iface) cfg] }) := by
  cases ha : b.addHostOnlyInterface with
  | fail e =>
    simp [provisionNetworking, ha, M.bind_apply, M.bind_apply', M.pure_apply,
      M.pure_apply', call_apply]
  | ok iface =>
    cases nca with
    | wrapped t =>
      simp [provisionNetworking, ha, M.bind_apply, M.bind_apply', M.pure_apply,
        M.pure_apply', call_apply, M.crash_apply]
    | plain cfg =>
      cases hc : b.configureHostOnlyInterface iface cfg.gateway cfg.netmask with
      | fail e =>
        simp [provisionNetworking, ha, hc, M.bind_apply, M.bind_apply', M.pure_apply,
          M.pure_apply', call_apply, pyThenM]
      | ok w =>
        simp [provisionNetworking, ha, hc, M.bind_apply, M.bind_apply', M.pure_apply,
          M.pure_apply', call_apply, pyThenM, provisionDHCP_apply, M.crash_apply]

/-- Closed-form run of `assertNetworking`: the desired netconfig is computed
first (a bad `network` value crashes both branches); with a truthy configured
interface the two backend reads happen (each downgrading not-found to
absence), are aggregated, and feed `assertNetworkConfiguration`; otherwise
the cold-start branch provisions with the still-wrapped netconfig. -/
theorem assertNetworking_apply (b : Backend) (s : DriverSt) :
    assertNetworking b s =
      match s.config.network with
      | none => (.error .addrFormatError, s)
      | some nw =>
        match parseCIDR nw with
        | none => (.error .addrFormatError, s)
        | some net =>
          if truthy s.config.interface then
            match seq3 (.ok (netConfigOf net))
                (catchNotFound (b.readHostOnlyInterface (s.config.interface.getD "")))
                (catchNotFound (b.readDHCP (s.config.interface.getD ""))) with
            | .fail e =>
              (.ok (.out (.fail e)),
               { s with trace := s.trace ++
                   [.readHostOnlyInterface (s.config.interface.getD ""),
                    .readDHCP (s.config.interface.getD "")] })
            | .ok parts =>
              assertNetworkConfiguration b parts
                { s with trace := s.trace ++
                    [.readHostOnlyInterface (s.config.interface.getD ""),
                     .readDHCP (s.config.interface.getD "")] }
          else
            provisionNetworking b (.wrapped (.ok (netConfigOf net))) s := by
  cases hn : s.config.network with
  | none =>
    simp [assertNetworking, readNetworkConfig, hn, M.bind_apply, M.bind_apply',
      M.pure_apply, M.pure_apply', getConfig_apply, M.crash_apply]
  | some nw =>
    cases hp : parseCIDR nw with
    | none =>
      simp [assertNetworking, readNetworkConfig, hn, hp, M.bind_apply, M.bind_apply',
        M.pure_apply, M.pure_apply', getConfig_apply, M.crash_apply]
    | some net =>
      by_cases ht : truthy s.config.interface = true
      · cases hsq : seq3 (Try.ok (netConfigOf net))
            (catchNotFound (b.readHostOnlyInterface (s.config.interface.getD "")))
            (catchNotFound (b.readDHCP (s.config.interface.getD ""))) with
        | fail e =>
          simp only [netConfigOf] at hsq
          simp [assertNetworking, readNetworkConfig, hn, hp, ht, hsq, M.bind_apply,
            M.bind_apply', M.pure_apply, M.pure_apply', getConfig_apply, call_apply,
            netConfigOf]
        | ok parts =>
          simp only [netConfigOf] at hsq
          simp [assertNetworking, readNetworkConfig, hn, hp, ht, hsq, M.bind_apply,
            M.bind_apply', M.pure_apply, M.pure_apply', getConfig_apply, call_apply,
            netConfigOf]
      · simp [assertNetworking, readNetworkConfig, hn, hp, ht, M.bind_apply,
          M.bind_apply', M.pure_apply, M.pure_apply', getConfig_apply, call_apply,
          netConfigOf]


/-- A list of calls none of which is the machine-start primitive. -/
theorem noStart_list (l : List Call) (h : l.all (fun c => !c.isStart) = true) :
    ∀ c ∈ l, c.isStart = false := by
  intro c hc
  have h' := List.all_eq_true.mp h c hc
  simpa using h'

/-- `assertConfig` only talks to the config store: its trace grows by calls
that are never the machine-start primitive. -/
theorem assertConfig_trace (b : Backend) (s : DriverSt) :
    ∃ l, (assertConfig b s).2.trace = s.trace ++ l ∧ ∀ c ∈ l, c.isStart = false := by
  rw [assertConfig_apply]
  split
  · refine ⟨_, rfl, ?_⟩
    exact noStart_list _ rfl
  · split
    · refine ⟨_, rfl, ?_⟩
      exact noStart_list _ rfl
    · refine ⟨_, rfl, ?_⟩
      exact noStart_list _ rfl

/-- `provisionNetworking` only issues network-side calls: its trace grows by
calls that are never the machine-start primitive. -/
theorem provisionNetworking_trace (b : Backend) (nca : NetConfigArg) (s : DriverSt) :
    ∃ l, (provisionNetworking b nca s).2.trace = s.trace ++ l ∧
      ∀ c ∈ l, c.isStart = false := by
  rw [provisionNetworking_apply]
  split
  · refine ⟨_, rfl, ?_⟩
    exact noStart_list _ rfl
  · split
    · refine ⟨_, rfl, ?_⟩
      exact noStart_list _ rfl
    · split
      · refine ⟨_, rfl, ?_⟩
        exact noStart_list _ rfl
      · refine ⟨_, rfl, ?_⟩
        exact noStart_list _ rfl

/-- `provisionNetworking` always invokes the add-interface primitive. -/
theorem provisionNetworking_memAdd (b : Backend) (nca : NetConfigArg) (s : DriverSt) :
    Call.addHostOnlyInterface ∈ (provisionNetworking b nca s).2.trace := by
  rw [provisionNetworking_apply]
  split
  · simp
  · split
    · simp
    · split
      · simp
      · simp

/-- `assertNetworkConfiguration` only issues network-side calls. -/
theorem assertNetworkConfiguration_trace (b : Backend)
    (parts : NetConfig × Option Hoif × Option DHCP) (s : DriverSt) :
    ∃ l, (assertNetworkConfiguration b parts s).2.trace = s.trace ++ l ∧
      ∀ c ∈ l, c.isStart = false := by
  obtain ⟨cfg, hoif, dhcp⟩ := parts
  cases hoif with
  | none => exact provisionNetworking_trace b (.plain cfg) s
  | some h =>
    show ∃ l, ((if formatIPv4 h.ip ≠ cfg.gateway then provisionNetworking b (.plain cfg)
        else match dhcp with
          | none => provisionDHCP b h.name cfg
          | some _ => M.pure (.out (.ok h))) s).2.trace = s.trace ++ l ∧
      ∀ c ∈ l, c.isStart = false
    split
    · exact provisionNetworking_trace b (.plain cfg) s
    · cases dhcp with
      | none =>
        show ∃ l, (provisionDHCP b h.name cfg s).2.trace = s.trace ++ l ∧
          ∀ c ∈ l, c.isStart = false
        rw [provisionDHCP_apply]
        refine ⟨_, rfl, ?_⟩
        exact noStart_list _ rfl
      | some d => exact ⟨[], by simp [M.pure_apply'], by simp⟩

/-- `assertNetworking` only issues config-store and network-side calls: its
trace grows by calls that are never the machine-start primitive. -/
theorem assertNetworking_trace (b : Backend) (s : DriverSt) :
    ∃ l, (assertNetworking b s).2.trace = s.trace ++ l ∧
      ∀ c ∈ l, c.isStart = false := by
  rw [assertNetworking_apply]
  split
  · exact ⟨[], by simp, by simp⟩
  · split
    · exact ⟨[], by simp, by simp⟩
    · split
      · split
        · refine ⟨_, rfl, ?_⟩
          exact noStart_list _ rfl
        · next parts _ =>
          obtain ⟨l, hl, hl'⟩ := assertNetworkConfiguration_trace b parts
            { s with trace := s.trace ++ [.readHostOnlyInterface (s.config.interface.getD ""),
                .readDHCP (s.config.interface.getD "")] }
          refine ⟨[.readHostOnlyInterface (s.config.interface.getD ""),
            .readDHCP (s.config.interface.getD "")] ++ l, ?_, ?_⟩
          · rw [hl]
            simp
          · intro c hc
            rcases List.mem_append.mp hc with hmem | hmem
            · exact noStart_list [.readHostOnlyInterface (s.config.interface.getD ""),
                .readDHCP (s.config.interface.getD "")] rfl c hmem
            · exact hl' c hmem
      · exact provisionNetworking_trace b _ s

/-- Is this call the config-persist primitive? -/
def Call.isSave (c : Call) : Bool :=
  match c with
  | .saveConfig _ => true
  | _ => false

/-- Is this call the add-interface primitive? -/
def Call.isAddInterface (c : Call) : Bool :=
  match c with
  | .addHostOnlyInterface => true
  | _ => false

/-- Is this call the configure-interface primitive? -/
def Call.isConfigure (c : Call) : Bool :=
  match c with
  | .configureHostOnlyInterface _ _ _ => true
  | _ => false

/-- Did an effectful driver operation return a Success Outcome, for
operations whose value is a plain Outcome? -/
def trySucceeded {α : Type} (r : Except Crash (Try α)) : Bool :=
  match r with
  | .ok (.ok _) => true
  | _ => false

/-- A key absent from an association list looks up to `none`. -/
theorem lookup_none_of_contains_false {β : Type} (st : String)
    (l : List (String × β)) (h : (l.map Prod.fst).contains st = false) :
    l.lookup st = none := by
  induction l with
  | nil => rfl
  | cons p tl ih =>
    obtain ⟨k, v⟩ := p
    simp only [List.map_cons, List.contains_cons, Bool.or_eq_false_iff] at h
    obtain ⟨h1, h2⟩ := h
    simp only [List.lookup, h1]
    exact ih h2

/-- Closed-form run of `startMachine`: the assert pipeline runs first, and
the backend start primitive is invoked exactly when both asserts return a
Success. -/
theorem startMachine_apply (b : Backend) (uuid : String) (s : DriverSt) :
    startMachine b uuid s =
      match assertConfig b s with
      | (.error c, s1) => (.error c, s1)
      | (.ok t, s1) =>
        match t with
        | .fail e => (.ok (.out (.fail e)), s1)
        | .ok _ =>
          match assertNetworking b s1 with
          | (.error c, s2) => (.error c, s2)
          | (.ok .pynone, s2) => (.error .attributeError, s2)
          | (.ok (.out (.fail e)), s2) => (.ok (.out (.fail e)), s2)
          | (.ok (.out (.ok _)), s2) =>
            (.ok (.out (b.start uuid)),
             { s2 with trace := s2.trace ++ [.machineStart uuid] }) := by
  rcases hc : assertConfig b s with ⟨rc, s1⟩
  cases rc with
  | error c => simp [startMachine, M.bind_apply, hc]
  | ok t =>
    cases t with
    | fail e =>
      simp [startMachine, M.bind_apply, hc, pyThenM, M.pure_apply, M.pure_apply']
    | ok v =>
      rcases hn : assertNetworking b s1 with ⟨rn, s2⟩
      cases rn with
      | error c =>
        simp [startMachine, M.bind_apply, hc, hn, pyThenM, M.pure_apply, M.pure_apply']
      | ok p =>
        cases p with
        | pynone =>
          simp [startMachine, M.bind_apply, hc, hn, pyThenM, M.pure_apply,
            M.pure_apply', M.crash_apply]
        | out o =>
          cases o with
          | fail e =>
            simp [startMachine, M.bind_apply, hc, hn, pyThenM, M.pure_apply,
              M.pure_apply']
          | ok w =>
            simp [startMachine, M.bind_apply, hc, hn, pyThenM, M.pure_apply,
              M.pure_apply', call_apply]

-- ---------------------------------------------------------------------------
-- Claim theorems.
-- ---------------------------------------------------------------------------

/-- C8: the state translator is a total function from backend status strings
to the closed EngineState set that never fails: "poweroff" maps to STOPPED,
"running" to RUNNING, "saved" to SUSPENDED, "inaccessible" and "inexistent"
to INEXISTENT, "starting" and "stopping" to RUNNING, and every string not
present in the table maps to UNKNOWN. -/
theorem vboxStateToMachineState_total :
    vboxStateToMachineState "poweroff" = .ok .STOPPED ∧
    vboxStateToMachineState "running" = .ok .RUNNING ∧
    vboxStateToMachineState "saved" = .ok .SUSPENDED ∧
    vboxStateToMachineState "inaccessible" = .ok .INEXISTENT ∧
    vboxStateToMachineState "inexistent" = .ok .INEXISTENT ∧
    vboxStateToMachineState "starting" = .ok .RUNNING ∧
    vboxStateToMachineState "stopping" = .ok .RUNNING ∧
    (∀ st : String, (stateMapping.map Prod.fst).contains st = false →
      vboxStateToMachineState st = .ok .UNKNOWN) ∧
    (∀ st : String, ∃ es : EngineStates, vboxStateToMachineState st = .ok es) := by
  refine ⟨by decide, by decide, by decide, by decide, by decide, by decide, by decide,
    ?_, ?_⟩
  · intro st h
    unfold vboxStateToMachineState
    rw [lookup_none_of_contains_false st stateMapping h]
    rfl
  · intro st
    exact ⟨_, rfl⟩

/-- Witness for C8 at the concrete unlisted status string. -/
theorem vboxStateToMachineState_total_witness :
    (stateMapping.map Prod.fst).contains "some-unlisted-status" = false ∧
    vboxStateToMachineState "some-unlisted-status" = .ok .UNKNOWN :=
  ⟨by decide, vboxStateToMachineState_total.2.2.2.2.2.2.2.1 "some-unlisted-status" (by decide)⟩

/-- C10: `getMachineState` returns an Outcome wrapping the translated engine
state, while `isRunning`, `isStopped` and `isSuspended` compare that Outcome
object itself to EngineStates members with Python identity, which is always
False between objects of different classes; hence for every machine
identifier `isRunning` and `isSuspended` return None and `isStopped` returns
True, regardless of the backend state. -/
theorem statePredicates_compare_outcome_identity (b : Backend) (uuid : String)
    (s : DriverSt) :
    getMachineState b uuid s =
      (.ok ((b.readMachineState uuid).bind vboxStateToMachineState),
       { s with trace := s.trace ++ [.readMachineState uuid] }) ∧
    isRunning b uuid s =
      (.ok none, { s with trace := s.trace ++ [.readMachineState uuid] }) ∧
    isStopped b uuid s =
      (.ok (some true), { s with trace := s.trace ++ [.readMachineState uuid] }) ∧
    isSuspended b uuid s =
      (.ok none, { s with trace := s.trace ++ [.readMachineState uuid] }) := by
  refine ⟨rfl, ?_, ?_, ?_⟩ <;>
    simp [isRunning, isStopped, isSuspended, getMachineState, outcomeIsState,
      M.bind_apply, M.pure_apply, M.pure_apply', call_apply]

/-- C9: `assertConfig` loads the persisted configuration; exactly when
loading fails because the configuration file is absent it synthesizes the
default configuration (network `"172.21.21.0/24"`, interface absent),
persists it, and returns the save's Outcome (injected into the dynamic
result type); any other load failure propagates unchanged. -/
theorem assertConfig_synthesizes_defaults (b : Backend) (s : DriverSt) :
    assertConfig b s =
      match b.loadConfigFile with
      | .ok c =>
        (.ok (.ok (.inl c)), { config := c, trace := s.trace ++ [.loadConfigFile] })
      | .fail e =>
        if e.kind = ErrKind.FileDoesNotExist then
          (.ok ((b.saveConfig { network := some "172.21.21.0/24", interface := none }).map
             Sum.inr),
           { config := { network := some "172.21.21.0/24", interface := none }
             trace := s.trace ++ [.loadConfigFile,
               .saveConfig { network := some "172.21.21.0/24", interface := none }] })
        else
          (.ok (.fail e), { s with trace := s.trace ++ [.loadConfigFile] }) := by
  have h := assertConfig_apply b s
  simpa [getDefaultConfig] using h

/-- C7: the desired network configuration is a pure function of the
configured CIDR string — gateway is the second address in the range, netmask
the range's subnet mask, lower bound the third address, upper bound the last
address — and for "172.21.21.0/24" it yields exactly the documented strings,
wrapped in a Success. -/
theorem readNetworkConfig_derives (s : DriverSt) :
    (∀ nw net, s.config.network = some nw → parseCIDR nw = some net →
      readNetworkConfig s =
        (.ok (.ok { gateway := formatIPv4 (secondAddress net)
                    netmask := formatIPv4 (subnetMask net)
                    lowerIP := formatIPv4 (thirdAddress net)
                    upperIP := formatIPv4 (lastAddress net) }), s)) ∧
    (s.config.network = some "172.21.21.0/24" →
      readNetworkConfig s =
        (.ok (.ok { gateway := "172.21.21.1", netmask := "255.255.255.0"
                    lowerIP := "172.21.21.2", upperIP := "172.21.21.255" }), s)) := by
  constructor
  · intro nw net hn hp
    rw [readNetworkConfig_apply]
    simp only [hn, hp]
    simp [netConfigOf, secondAddress, thirdAddress, lastAddress, subnetMask, netAt]
  · intro hn
    rw [readNetworkConfig_apply]
    simp only [hn]
    rfl

/-- Witness for C7 at the default network string. -/
theorem readNetworkConfig_derives_witness :
    st0.config.network = some "172.21.21.0/24" ∧
    readNetworkConfig st0 =
      (.ok (.ok { gateway := "172.21.21.1", netmask := "255.255.255.0"
                  lowerIP := "172.21.21.2", upperIP := "172.21.21.255" }), st0) :=
  ⟨rfl, (readNetworkConfig_derives st0).2 rfl⟩

/-- C3 (code evaluation): `provisionDHCP` executes the removal/add chain but
has no return statement, so its result is Python `None` (`pynone`) and never
the Outcome of the DHCP-add step — even though that add step succeeded. -/
theorem provisionDHCP_discards_chain_result :
    provisionDHCP okBackend "vboxnet0" cfg0 stCold =
      (.ok .pynone,
       { config := stCold.config
         trace := [.removeDHCP "vboxnet0", .addDHCP "" cfg0] }) ∧
    okBackend.addDHCP "" cfg0 = .ok "" ∧
    (∀ o : Try Hoif, (provisionDHCP okBackend "vboxnet0" cfg0 stCold).1 ≠ .ok (.out o)) := by
  refine ⟨by decide, by decide, ?_⟩
  intro o
  rw [provisionDHCP_apply]
  simp

/-- C2 (code evaluation): the full provisioning path never reaches the
persist and re-read steps.  On a cold start the netconfig is passed still
Outcome-wrapped and subscripting it raises `TypeError` right after the
interface is added; on the reconciliation path the DHCP chain runs and then
`provisionDHCP`'s missing return makes `.then(saveInterface)` raise
`AttributeError`.  In both cases `saveConfig` is never called, the new
interface is never re-read, and the configured interface key is unchanged. -/
theorem provisionPath_never_persists :
    assertNetworking okBackend stCold =
      (.error .typeError, { config := stCold.config, trace := [.addHostOnlyInterface] }) ∧
    assertNetworking noIfaceBackend st0 =
      (.error .attributeError,
       { config := st0.config
         trace := [.readHostOnlyInterface "vboxnet0", .readDHCP "vboxnet0",
                   .addHostOnlyInterface,
                   .configureHostOnlyInterface "vboxnet1" "172.21.21.1" "255.255.255.0",
                   .removeDHCP "vboxnet1", .addDHCP "" cfg0] }) ∧
    (assertNetworking noIfaceBackend st0).2.trace.all (fun c => !c.isSave) = true ∧
    Call.readHostOnlyInterface "vboxnet1" ∉ (assertNetworking noIfaceBackend st0).2.trace ∧
    (assertNetworking noIfaceBackend st0).2.config = st0.config := by
  refine ⟨by decide, by decide, by decide, by decide, by decide⟩

/-- C6 (counterexample): a DHCP-removal failure whose kind is
`BackendCommandFailed` — not an object-presence error — is still recovered
by the untyped `.catch` and the chain continues into the DHCP-add step,
contradicting the claim that only "not found" removal failures are treated
as success-equivalent. -/
theorem provisionDHCP_blanket_catch_cex :
    dhcpRemovalFailsBackend.removeDHCP "vboxnet0" =
      .fail { kind := .BackendCommandFailed, msg := "boom" } ∧
    provisionDHCP dhcpRemovalFailsBackend "vboxnet0" cfg0 stCold =
      (.ok .pynone,
       { config := stCold.config
         trace := [.removeDHCP "vboxnet0", .addDHCP "vboxnet0" cfg0] }) ∧
    Call.addDHCP "vboxnet0" cfg0 ∈
      (provisionDHCP dhcpRemovalFailsBackend "vboxnet0" cfg0 stCold).2.trace := by
  refine ⟨by decide, by decide, by decide⟩

/-- C6 (amended): every failure of the DHCP-removal step, of any error kind,
is treated as success-equivalent — the untyped `.catch` substitutes the
interface name and the chain always continues to the DHCP-add step. -/
theorem provisionDHCP_blanket_catch (b : Backend) (iface : String) (cfg : NetConfig)
    (s : DriverSt) (e : Err) (h : b.removeDHCP iface = .fail e) :
    provisionDHCP b iface cfg s =
      (.ok .pynone,
       { s with trace := s.trace ++ [.removeDHCP iface, .addDHCP iface cfg] }) := by
  rw [provisionDHCP_apply]
  simp [dhcpAddArg, h]

/-- Witness for the amended C6 at a concrete non-not-found removal failure. -/
theorem provisionDHCP_blanket_catch_witness :
    dhcpRemovalFailsBackend.removeDHCP "vboxnet9" =
      .fail { kind := .BackendCommandFailed, msg := "boom" } ∧
    provisionDHCP dhcpRemovalFailsBackend "vboxnet9" cfg0 st0 =
      (.ok .pynone,
       { st0 with trace := st0.trace ++ [.removeDHCP "vboxnet9", .addDHCP "vboxnet9" cfg0] }) :=
  ⟨by decide,
   provisionDHCP_blanket_catch dhcpRemovalFailsBackend "vboxnet9" cfg0 st0
     { kind := .BackendCommandFailed, msg := "boom" } (by decide)⟩

/-- C4: in reconciliation scenario C — interface configured, actual
interface present with its assigned address equal to the desired gateway,
DHCP absent — the engine performs the DHCP repair only: after the two reads
it issues exactly the DHCP-remove and DHCP-add calls, never add-interface or
configure-interface, and leaves the stored configuration untouched. -/
theorem scenarioC_repairs_dhcp_only (b : Backend) (s : DriverSt) (name nw : String)
    (net : IPNet) (hf : Hoif) (e : Err)
    (h1 : s.config.interface = some name) (h2 : name.isEmpty = false)
    (h3 : s.config.network = some nw) (h4 : parseCIDR nw = some net)
    (h5 : b.readHostOnlyInterface name = .ok hf)
    (h6 : formatIPv4 hf.ip = (netConfigOf net).gateway)
    (h7 : b.readDHCP name = .fail e) (h8 : e.kind = .VirtualBoxObjectNotFound)
    (h9 : s.trace.all (fun c => !c.isAddInterface && !c.isConfigure) = true) :
    assertNetworking b s =
      (.ok .pynone,
       { config := s.config
         trace := s.trace ++ [.readHostOnlyInterface name, .readDHCP name,
           .removeDHCP hf.name, .addDHCP (dhcpAddArg b hf.name) (netConfigOf net)] }) ∧
    (assertNetworking b s).2.config = s.config ∧
    (assertNetworking b s).2.trace.all (fun c => !c.isAddInterface && !c.isConfigure)
      = true := by
  have ht : truthy s.config.interface = true := by
    rw [h1]
    simp [truthy, h2]
  have hgetd : s.config.interface.getD "" = name := by
    rw [h1]
    rfl
  have hhoif : catchNotFound (b.readHostOnlyInterface name) = .ok (some hf) := by
    rw [h5]
    rfl
  have hdhcp : catchNotFound (b.readDHCP name) = .ok none := by
    rw [h7]
    simp [catchNotFound, Try.map, Try.catchError, h8]
  have hg : ¬(formatIPv4 hf.ip ≠ (netConfigOf net).gateway) := by
    rw [h6]
    simp
  have key : assertNetworking b s =
      (.ok .pynone,
       { config := s.config
         trace := s.trace ++ [.readHostOnlyInterface name, .readDHCP name,
           .removeDHCP hf.name, .addDHCP (dhcpAddArg b hf.name) (netConfigOf net)] }) := by
    rw [assertNetworking_apply]
    simp only [h3, h4, ht, if_true, hgetd, hhoif, hdhcp, seq3]
    simp only [assertNetworkConfiguration, hg, if_neg, ite_false]
    rw [provisionDHCP_apply]
    simp
  refine ⟨key, ?_, ?_⟩
  · rw [key]
  · rw [key]
    simp only [List.all_append, h9, Bool.true_and]
    rfl

/-- C5: in reconciliation scenario B — interface configured, backend read of
the actual interface fails with ObjectNotFound — `assertNetworking` does not
return that failure: the not-found error is downgraded to an absence value
and the engine runs the full provisioning path instead (its outcome and
state are exactly those of `provisionNetworking`, which starts by invoking
the add-interface primitive). -/
theorem scenarioB_reprovisions (b : Backend) (s : DriverSt) (name nw : String)
    (net : IPNet) (e : Err) (d : Option DHCP)
    (h1 : s.config.interface = some name) (h2 : name.isEmpty = false)
    (h3 : s.config.network = some nw) (h4 : parseCIDR nw = some net)
    (h5 : b.readHostOnlyInterface name = .fail e)
    (h6 : e.kind = .VirtualBoxObjectNotFound)
    (h7 : catchNotFound (b.readDHCP name) = .ok d) :
    assertNetworking b s =
      provisionNetworking b (.plain (netConfigOf net))
        { config := s.config
          trace := s.trace ++ [.readHostOnlyInterface name, .readDHCP name] } ∧
    Call.addHostOnlyInterface ∈ (assertNetworking b s).2.trace := by
  have ht : truthy s.config.interface = true := by
    rw [h1]
    simp [truthy, h2]
  have hgetd : s.config.interface.getD "" = name := by
    rw [h1]
    rfl
  have hhoif : catchNotFound (b.readHostOnlyInterface name) = .ok none := by
    rw [h5]
    simp [catchNotFound, Try.map, Try.catchError, h6]
  have key : assertNetworking b s =
      provisionNetworking b (.plain (netConfigOf net))
        { config := s.config
          trace := s.trace ++ [.readHostOnlyInterface name, .readDHCP name] } := by
    rw [assertNetworking_apply]
    simp only [h3, h4, ht, if_true, hgetd, hhoif, h7, seq3]
    rfl
  refine ⟨key, ?_⟩
  rw [key]
  exact provisionNetworking_memAdd b _ _

/-- Witness for C4: scenario C against the concrete no-DHCP collaborator. -/
theorem scenarioC_repairs_dhcp_only_witness :
    st0.config.interface = some "vboxnet0" ∧
    noDhcpBackend.readDHCP "vboxnet0" =
      .fail { kind := .VirtualBoxObjectNotFound, msg := "no dhcp" } ∧
    (assertNetworking noDhcpBackend st0 =
      (.ok .pynone,
       { config := st0.config
         trace := st0.trace ++ [.readHostOnlyInterface "vboxnet0", .readDHCP "vboxnet0",
           .removeDHCP (Hoif.name ⟨"vboxnet0", gwAddr⟩),
           .addDHCP (dhcpAddArg noDhcpBackend (Hoif.name ⟨"vboxnet0", gwAddr⟩))
             (netConfigOf ⟨2887062784, 24⟩)] }) ∧
     (assertNetworking noDhcpBackend st0).2.config = st0.config ∧
     (assertNetworking noDhcpBackend st0).2.trace.all
       (fun c => !c.isAddInterface && !c.isConfigure) = true) :=
  ⟨rfl, rfl,
   scenarioC_repairs_dhcp_only noDhcpBackend st0 "vboxnet0" "172.21.21.0/24"
     ⟨2887062784, 24⟩ ⟨"vboxnet0", gwAddr⟩
     { kind := .VirtualBoxObjectNotFound, msg := "no dhcp" }
     rfl (by decide) rfl (by decide) (by decide) (by decide) (by decide) rfl
     (by decide)⟩

/-- Witness for C5: scenario B against the concrete missing-interface
collaborator. -/
theorem scenarioB_reprovisions_witness :
    noIfaceBackend.readHostOnlyInterface "vboxnet0" =
      .fail { kind := .VirtualBoxObjectNotFound, msg := "no hoif" } ∧
    (assertNetworking noIfaceBackend st0 =
      provisionNetworking noIfaceBackend (.plain (netConfigOf ⟨2887062784, 24⟩))
        { config := st0.config
          trace := st0.trace ++ [.readHostOnlyInterface "vboxnet0", .readDHCP "vboxnet0"] } ∧
     Call.addHostOnlyInterface ∈ (assertNetworking noIfaceBackend st0).2.trace) :=
  ⟨rfl,
   scenarioB_reprovisions noIfaceBackend st0 "vboxnet0" "172.21.21.0/24"
     ⟨2887062784, 24⟩ { kind := .VirtualBoxObjectNotFound, msg := "no hoif" }
     (some "dhcp0") rfl (by decide) rfl (by decide) (by decide) (by decide) (by decide)⟩

/-- C1: `startMachine` runs `assertConfig`, then `assertNetworking`, and
invokes the backend start primitive only when both return a Success — in
that case the start call is the last recorded call, issued after all
reconciliation calls, and its Outcome is the result; whenever either assert
does not return a Success (a Failure, a crash, or the `None` value), the
start primitive is never invoked at all (no start call ever enters the
trace, given that none was there before). -/
theorem startMachine_guarded (b : Backend) (uuid : String) (s : DriverSt)
    (h : s.trace.all (fun c => !c.isStart) = true) :
    ((trySucceeded (assertConfig b s).1 = true ∧
      pySucceeded (assertNetworking b (assertConfig b s).2).1 = true) →
      startMachine b uuid s =
        (.ok (.out (b.start uuid)),
         { (assertNetworking b (assertConfig b s).2).2 with
             trace := (assertNetworking b (assertConfig b s).2).2.trace ++
               [.machineStart uuid] })) ∧
    (¬ (trySucceeded (assertConfig b s).1 = true ∧
        pySucceeded (assertNetworking b (assertConfig b s).2).1 = true) →
      (startMachine b uuid s).2.trace.all (fun c => !c.isStart) = true) := by
  obtain ⟨l1, hl1, hl1'⟩ := assertConfig_trace b s
  rcases hc : assertConfig b s with ⟨rc, s1⟩
  rw [hc] at hl1
  have hs1 : s1.trace = s.trace ++ l1 := hl1
  have hs1all : s1.trace.all (fun c => !c.isStart) = true := by
    rw [hs1, List.all_append, h, Bool.true_and, List.all_eq_true]
    intro c hcm
    simp [hl1' c hcm]
  obtain ⟨l2, hl2, hl2'⟩ := assertNetworking_trace b s1
  rcases hn : assertNetworking b s1 with ⟨rn, s2⟩
  rw [hn] at hl2
  have hs2 : s2.trace = s1.trace ++ l2 := hl2
  have hs2all : s2.trace.all (fun c => !c.isStart) = true := by
    rw [hs2, List.all_append, hs1all, Bool.true_and, List.all_eq_true]
    intro c hcm
    simp [hl2' c hcm]
  constructor
  · rintro ⟨hca, hna⟩
    cases rc with
    | error c => simp [trySucceeded] at hca
    | ok t =>
      cases t with
      | fail e => simp [trySucceeded] at hca
      | ok v =>
        cases rn with
        | error c => simp [pySucceeded] at hna
        | ok p =>
          cases p with
          | pynone => simp [pySucceeded] at hna
          | out o =>
            cases o with
            | fail e => simp [pySucceeded] at hna
            | ok w =>
              rw [startMachine_apply]
              simp only [hc, hn]
  · intro hfail
    rw [startMachine_apply]
    simp only [hc]
    cases rc with
    | error c => simpa using hs1all
    | ok t =>
      cases t with
      | fail e => simpa using hs1all
      | ok v =>
        simp only [hn]
        cases rn with
        | error c => simpa using hs2all
        | ok p =>
          cases p with
          | pynone => simpa using hs2all
          | out o =>
            cases o with
            | fail e => simpa using hs2all
            | ok w => exact absurd ⟨rfl, rfl⟩ hfail

/-- Witness for C1: with an already-converged collaborator both asserts
succeed and the start call is issued last, with its Outcome as the result. -/
theorem startMachine_guarded_witness :
    st0.trace.all (fun c => !c.isStart) = true ∧
    startMachine okBackend "machine-uuid" st0 =
      (.ok (.out (okBackend.start "machine-uuid")),
       { (assertNetworking okBackend (assertConfig okBackend st0).2).2 with
           trace := (assertNetworking okBackend (assertConfig okBackend st0).2).2.trace ++
             [.machineStart "machine-uuid"] }) :=
  ⟨by decide,
   (startMachine_guarded okBackend "machine-uuid" st0 (by decide)).1 ⟨by decide, by decide⟩⟩
